import Mathlib

/-!
Shallow embedding of the digital-logic lab simulator (src/Arduino.cpp).

The sketch keeps five global state variables (`currentCircuit`,
`lastClockState`, `lastPulseTime`, `counterValue`, `flipFlopState`) and
drives 8 output pins plus 7 segment pins.  We model the pin levels as part
of the state (a `digitalWrite` is a functional update, a `digitalRead` of an
output pin reads the stored level), and the input pins, the clock pin, the
reset pin and `millis()` as parameters supplied to each call.  Serial
printing is pure I/O with no effect on state and is dropped.  `HIGH` is
`true`, `LOW` is `false`.  `unsigned long` is `Nat` reduced mod `2 ^ 32`;
`int` is `Int`, with the C truncating `%` rendered as `Int.tmod`.
-/

namespace LogicLab

/-- Persisted engine state plus the latched levels of the output and
segment pins (globals of src/Arduino.cpp, lines 27-31, and the pins they
drive). -/
structure EngineState where
  currentCircuit : String
  lastClockState : Bool
  lastPulseTime : Nat
  counterValue : Int
  flipFlopState : Bool
  outputs : Fin 8 → Bool
  segments : Fin 7 → Bool

/-- Modulus of the 32-bit `unsigned long` type. -/
def uintMod : Nat := 4294967296

/-- Unsigned 32-bit subtraction `a - b` as performed on `unsigned long`. -/
def usub32 (a b : Nat) : Nat := (a % uintMod + (uintMod - b % uintMod)) % uintMod

/-- The 7-segment display patterns for digits 0-9
(`digitPatterns`, src/Arduino.cpp lines 34-45). -/
def digitPatterns : List Nat :=
  [0b00111111, 0b00000110, 0b01011011, 0b01001111, 0b01100110,
   0b01101101, 0b01111101, 0b00000111, 0b01111111, 0b01101111]

/-- The Arduino `constrain(x, lo, hi)` macro on `int`. -/
def constrain (x lo hi : Int) : Int :=
  if x < lo then lo else if x > hi then hi else x

/-- C right-shift-and-mask `(v >> i) & 0x01` on `int`, as a `Bool`
(used for `digitalWrite(outputPins[i], (counterValue >> i) & 0x01)`). -/
def intBit (v : Int) (i : Nat) : Bool := (v.shiftRight i).tmod 2 == 1

/-- Bool-to-int conversion applied by C when a `bool` is shifted/or-ed. -/
def bnat (b : Bool) : Nat := cond b 1 0

/-- Embedding of `processBasicGates` (src/Arduino.cpp lines 120-135): combinational
single-output gates dispatched on `currentCircuit`; `output` defaults to
`LOW` when no branch matches. -/
def processBasicGates (inputs : Fin 8 → Bool) (st : EngineState) : EngineState :=
  let A := inputs 0
  let B := inputs 1
  let output :=
    if st.currentCircuit = "AND" then A && B
    else if st.currentCircuit = "OR" then A || B
    else if st.currentCircuit = "NOT" then !A
    else if st.currentCircuit = "NAND" then !(A && B)
    else if st.currentCircuit = "NOR" then !(A || B)
    else if st.currentCircuit = "XOR" then xor A B
    else if st.currentCircuit = "XNOR" then !(xor A B)
    else false
  { st with outputs := Function.update st.outputs 0 output }

/-- Embedding of `processCombinationalCircuits` (src/Arduino.cpp lines 138-164):
half adder, full adder and 4:1 multiplexer. -/
def processCombinationalCircuits (inputs : Fin 8 → Bool) (st : EngineState) : EngineState :=
  let A := inputs 0
  let B := inputs 1
  let C := inputs 2
  if st.currentCircuit = "Half Adder" then
    let sum := xor A B
    let carry := A && B
    { st with outputs := Function.update (Function.update st.outputs 0 sum) 1 carry }
  else if st.currentCircuit = "Full Adder" then
    let sum := xor (xor A B) C
    let carry := (A && B) || (B && C) || (A && C)
    { st with outputs := Function.update (Function.update st.outputs 0 sum) 1 carry }
  else if st.currentCircuit = "Multiplexer (MUX)" then
    let S0 := inputs 2
    let S1 := inputs 3
    let output := (!S1 && !S0 && A) || (!S1 && S0 && B) ||
                  (S1 && !S0 && C) || (S1 && S0 && inputs 4)
    { st with outputs := Function.update st.outputs 0 output }
  else st

/-- Embedding of `processSequentialCircuits` (src/Arduino.cpp lines 167-191): D and JK
flip-flops.  Rising-edge update, then the clock is latched, then the
active-low reset forces the flip-flop low, then the value is output. -/
def processSequentialCircuits (inputs : Fin 8 → Bool) (clock reset : Bool)
    (st : EngineState) : EngineState :=
  let st1 :=
    if clock && !st.lastClockState then
      if st.currentCircuit = "D Flip-Flop" then
        { st with flipFlopState := inputs 0 }
      else if st.currentCircuit = "JK Flip-Flop" then
        let J := inputs 0
        let K := inputs 1
        if J && K then { st with flipFlopState := !st.flipFlopState }
        else if J then { st with flipFlopState := true }
        else if K then { st with flipFlopState := false }
        else st
      else st
    else st
  let st2 := { st1 with lastClockState := clock }
  let st3 := if reset = false then { st2 with flipFlopState := false } else st2
  { st3 with outputs := Function.update st3.outputs 0 st3.flipFlopState }

/-- Embedding of `processTimerCircuits` (src/Arduino.cpp lines 194-205): the astable
multivibrator.  `currentTime - lastPulseTime` is 32-bit unsigned
subtraction; the current output level is read back from the pin. -/
def processTimerCircuits (now : Nat) (st : EngineState) : EngineState :=
  if st.currentCircuit = "Astable Multivibrator" then
    if usub32 now st.lastPulseTime ≥ 1000 then
      let outputState := !(st.outputs 0)
      { st with outputs := Function.update st.outputs 0 outputState,
                lastPulseTime := now % uintMod }
    else st
  else st

/-- Embedding of `processCounterCircuits` (src/Arduino.cpp lines 208-231): up/down 4-bit
counters.  Reset is checked before edge detection; the low four bits are
written to output lines 0-3 only inside the rising-edge branch; the clock
is latched at the end. -/
def processCounterCircuits (clock reset : Bool) (st : EngineState) : EngineState :=
  let st1 := if reset = false then { st with counterValue := 0 } else st
  let st2 :=
    if clock && !st1.lastClockState then
      let v :=
        if st1.currentCircuit = "Binary Up Counter" then
          (st1.counterValue + 1).tmod 16
        else if st1.currentCircuit = "Binary Down Counter" then
          (st1.counterValue - 1 + 16).tmod 16
        else st1.counterValue
      { st1 with counterValue := v,
                 outputs := fun i => if (i : Nat) < 4 then intBit v (i : Nat) else st1.outputs i }
    else st1
  { st2 with lastClockState := clock }

/-- The index computed and clamped by the BCD decoder
(src/Arduino.cpp lines 236-237). -/
def decoderValue (inputs : Fin 8 → Bool) : Int :=
  constrain ((bnat (inputs 3) <<< 3 ||| bnat (inputs 2) <<< 2 |||
              bnat (inputs 1) <<< 1 ||| bnat (inputs 0) : Nat) : Int) 0 9

/-- Embedding of `processDecoderCircuits` (src/Arduino.cpp lines 234-244): BCD to
7-segment decoder; all seven segment pins are rewritten from the clamped
pattern-table entry. -/
def processDecoderCircuits (inputs : Fin 8 → Bool) (st : EngineState) : EngineState :=
  if st.currentCircuit = "BCD Decoder with 7-Segment Display" then
    let value := decoderValue inputs
    { st with segments := fun i =>
        (digitPatterns.getD value.toNat 0) >>> (i : Nat) &&& 1 == 1 }
  else st

/-- The registered circuit names (`validCircuits`, src/Arduino.cpp
lines 276-283). -/
def validCircuits : List String :=
  ["AND", "OR", "NOT", "NAND", "NOR", "XOR", "XNOR",
   "Half Adder", "Full Adder", "Multiplexer (MUX)",
   "D Flip-Flop", "JK Flip-Flop",
   "Astable Multivibrator",
   "Binary Up Counter", "Binary Down Counter",
   "BCD Decoder with 7-Segment Display"]

/-- Embedding of `isValidCircuit` (src/Arduino.cpp lines 274-289): exact string match
against the registry. -/
def isValidCircuit (circuit : String) : Bool := validCircuits.contains circuit

/-- Embedding of `resetSystem` (src/Arduino.cpp lines 291-306): zeroes every output pin
and segment pin, clears the flip-flop and counter, and records `millis()`
(the `now` parameter) as the last pulse time.  It does not touch
`currentCircuit` or `lastClockState`. -/
def resetSystem (now : Nat) (st : EngineState) : EngineState :=
  { st with outputs := fun _ => false, segments := fun _ => false,
            flipFlopState := false, counterValue := 0,
            lastPulseTime := now % uintMod }

/-- Embedding of `handleSerialCommand` (src/Arduino.cpp lines 250-272).  Reading the
line from the serial port and trimming it is the command transport;
`command` here is the trimmed line.  `menu` prints only; a registered name
becomes the current circuit and resets the system; anything else prints an
error and changes nothing. -/
def handleSerialCommand (command : String) (now : Nat) (st : EngineState) : EngineState :=
  if command = "menu" then st
  else if command = "reset" then resetSystem now st
  else if isValidCircuit command then
    resetSystem now { st with currentCircuit := command }
  else st

/-- Arduino `String::startsWith`: does `p` occur as an initial segment of
`s`?  Modelled on the underlying character sequence. -/
def startsWithStr (s p : String) : Bool := p.data.isPrefixOf s.data

/-- The circuit-dispatch chain of `loop` (src/Arduino.cpp lines 92-110):
the selected processing function is chosen by testing `currentCircuit`
against the category prefixes. -/
def loopDispatch (inputs : Fin 8 → Bool) (clock reset : Bool) (now : Nat)
    (st : EngineState) : EngineState :=
  if startsWithStr st.currentCircuit "Basic" then processBasicGates inputs st
  else if startsWithStr st.currentCircuit "Combinational" then
    processCombinationalCircuits inputs st
  else if startsWithStr st.currentCircuit "Sequential" then
    processSequentialCircuits inputs clock reset st
  else if startsWithStr st.currentCircuit "Timers" then
    processTimerCircuits now st
  else if startsWithStr st.currentCircuit "Counters" then
    processCounterCircuits clock reset st
  else if startsWithStr st.currentCircuit "Decoders" then
    processDecoderCircuits inputs st
  else st

/-- A concrete all-clear state used by witnesses: the startup defaults of
the globals (circuit "AND", everything low / zero). -/
def st0 : EngineState :=
  { currentCircuit := "AND", lastClockState := false, lastPulseTime := 0,
    counterValue := 0, flipFlopState := false,
    outputs := fun _ => false, segments := fun _ => false }

/-- None of the sixteen registered circuit names starts with any of the six
category prefixes tested by the dispatch chain of `loop`. -/
theorem valid_names_match_no_category :
    validCircuits.all (fun n =>
      !(startsWithStr n "Basic") && !(startsWithStr n "Combinational") &&
      !(startsWithStr n "Sequential") && !(startsWithStr n "Timers") &&
      !(startsWithStr n "Counters") && !(startsWithStr n "Decoders")) = true := by
  decide

/-- C1: the claim says each tick of the main loop runs the evaluation rule
of the active circuit.  In the code the dispatch chain tests `currentCircuit`
against the category prefixes "Basic", "Combinational", "Sequential",
"Timers", "Counters", "Decoders", but `currentCircuit` always holds a
registered circuit NAME ("AND", "Half Adder", ...), none of which starts
with any category prefix — so for every registered name the tick runs no
evaluation rule at all and leaves the whole state (outputs included)
unchanged. -/
theorem c1_loop_dispatch_dead (name : String) (hname : name ∈ validCircuits)
    (inputs : Fin 8 → Bool) (clock reset : Bool) (now : Nat) (st : EngineState)
    (hst : st.currentCircuit = name) :
    loopDispatch inputs clock reset now st = st := by
  have hall := List.all_eq_true.mp valid_names_match_no_category name hname
  simp only [Bool.and_eq_true, Bool.not_eq_true'] at hall
  obtain ⟨⟨⟨⟨⟨a1, a2⟩, a3⟩, a4⟩, a5⟩, a6⟩ := hall
  simp [loopDispatch, hst, a1, a2, a3, a4, a5, a6]

/-- C1 witness: with the startup circuit "AND" active, a tick leaves the
state untouched. -/
theorem c1_loop_dispatch_dead_witness :
    loopDispatch (fun _ => true) true true 0 st0 = st0 :=
  c1_loop_dispatch_dead "AND" (by decide) (fun _ => true) true true 0 st0 rfl

/-- A state with the up counter active and counter value 1 (clock idle,
everything else at the startup defaults). -/
def stC2 : EngineState :=
  { st0 with currentCircuit := "Binary Up Counter", counterValue := 1 }

/-- C2 counterexample: on a call with no rising clock edge (clock LOW), the
claim requires output line 0 to carry bit 0 of the counter value 1 (HIGH),
but the code writes the output lines only inside the rising-edge branch and
leaves output 0 LOW. -/
theorem c2_counterexample :
    (processCounterCircuits false true stC2).counterValue = 1 ∧
    intBit (processCounterCircuits false true stC2).counterValue 0 = true ∧
    (processCounterCircuits false true stC2).outputs 0 = false := by
  refine ⟨by simp [processCounterCircuits, stC2, st0], ?_, ?_⟩
  · simp [processCounterCircuits, stC2, st0]
    decide
  · simp [processCounterCircuits, stC2, st0]

/-- C2 (amended): with a counter circuit active, a call with a rising clock
edge writes the low 4 bits of the (updated) counter value to output lines
0-3, least-significant bit on line 0; a call without a rising edge leaves
every output line unchanged. -/
theorem c2_counter_output_bits (clock reset : Bool) (st : EngineState)
    (hc : st.currentCircuit = "Binary Up Counter" ∨
          st.currentCircuit = "Binary Down Counter") :
    (clock = true ∧ st.lastClockState = false →
      ∀ i : Fin 8, (i : Nat) < 4 →
        (processCounterCircuits clock reset st).outputs i
          = intBit (processCounterCircuits clock reset st).counterValue (i : Nat))
    ∧ (¬(clock = true ∧ st.lastClockState = false) →
        (processCounterCircuits clock reset st).outputs = st.outputs) := by
  constructor
  · rintro ⟨rfl, hlc⟩ i hi
    rcases hr : reset <;> simp [processCounterCircuits, hlc, hi, hr]
  · intro hne
    have hcond : (clock && !st.lastClockState) = false := by
      rcases clock with _ | _ <;> rcases h : st.lastClockState <;>
        simp_all
    rcases hr : reset <;> simp [processCounterCircuits, hcond, hr]

/-- C2 witness: a rising edge on the up counter from value 1 puts bit 0 of
the new counter value on output line 0. -/
theorem c2_counter_output_bits_witness :
    (processCounterCircuits true true stC2).outputs 0
      = intBit (processCounterCircuits true true stC2).counterValue 0 :=
  (c2_counter_output_bits true true stC2 (Or.inl rfl)).1 ⟨rfl, rfl⟩ 0 (by decide)

/-- C3: full single-call characterisation of the D flip-flop.  The stored
value becomes input line 0 exactly on calls where the clock reads HIGH while
the stored last clock level is LOW, is held on every other call, and is
forced LOW whenever the reset line reads LOW — overriding an edge update in
the same call.  The current clock level is latched and the value is emitted
on output line 0. -/
theorem c3_d_flip_flop (inputs : Fin 8 → Bool) (clock reset : Bool)
    (st : EngineState) (hc : st.currentCircuit = "D Flip-Flop") :
    (processSequentialCircuits inputs clock reset st).flipFlopState
      = (if reset = false then false
         else if clock && !st.lastClockState then inputs 0
         else st.flipFlopState)
    ∧ (processSequentialCircuits inputs clock reset st).outputs 0
        = (processSequentialCircuits inputs clock reset st).flipFlopState
    ∧ (processSequentialCircuits inputs clock reset st).lastClockState = clock := by
  rcases hr : reset <;> rcases hk : (clock && !st.lastClockState) <;>
    simp [processSequentialCircuits, hc, hk, hr]

/-- C3 witness: a rising edge with data HIGH and reset deasserted loads the
flip-flop with HIGH. -/
theorem c3_d_flip_flop_witness :
    (processSequentialCircuits (fun _ => true) true true
        { st0 with currentCircuit := "D Flip-Flop" }).flipFlopState
      = (if (true : Bool) = false then false
         else if true && !({ st0 with currentCircuit := "D Flip-Flop" } :
            EngineState).lastClockState then true
         else ({ st0 with currentCircuit := "D Flip-Flop" } :
            EngineState).flipFlopState) :=
  (c3_d_flip_flop (fun _ => true) true true
    { st0 with currentCircuit := "D Flip-Flop" } rfl).1

/-- C4: handling the command naming any registered circuit sets the active
circuit to that name and resets the system: flip-flop LOW, counter 0,
last-pulse timestamp set to the current time, all output lines and all
segment lines LOW — so no flip-flop/counter/timer state survives a circuit
switch. -/
theorem c4_select_circuit (name : String) (hname : name ∈ validCircuits)
    (now : Nat) (st : EngineState) :
    (handleSerialCommand name now st).currentCircuit = name ∧
    (handleSerialCommand name now st).flipFlopState = false ∧
    (handleSerialCommand name now st).counterValue = 0 ∧
    (handleSerialCommand name now st).lastPulseTime = now % uintMod ∧
    (handleSerialCommand name now st).outputs = (fun _ => false) ∧
    (handleSerialCommand name now st).segments = (fun _ => false) := by
  have hm : name ≠ "menu" := by rintro rfl; exact absurd hname (by decide)
  have hr : name ≠ "reset" := by rintro rfl; exact absurd hname (by decide)
  have hv : isValidCircuit name = true := by
    simpa [isValidCircuit, List.contains] using List.elem_iff.mpr hname
  simp [handleSerialCommand, hm, hr, hv, resetSystem]

/-- C4 witness: selecting "XOR" at time 7 from the startup state. -/
theorem c4_select_circuit_witness :
    (handleSerialCommand "XOR" 7 st0).currentCircuit = "XOR" ∧
    (handleSerialCommand "XOR" 7 st0).flipFlopState = false ∧
    (handleSerialCommand "XOR" 7 st0).counterValue = 0 ∧
    (handleSerialCommand "XOR" 7 st0).lastPulseTime = 7 % uintMod ∧
    (handleSerialCommand "XOR" 7 st0).outputs = (fun _ => false) ∧
    (handleSerialCommand "XOR" 7 st0).segments = (fun _ => false) :=
  c4_select_circuit "XOR" (by decide) 7 st0

/-- Unsigned 32-bit subtraction agrees with the exact difference while the
minuend has not wrapped past the subtrahend. -/
theorem usub32_eq (a b : Nat) (h1 : b ≤ a) (h2 : a < uintMod) :
    usub32 a b = a - b := by
  have hb : b % uintMod = b := Nat.mod_eq_of_lt (lt_of_le_of_lt h1 h2)
  have ha : a % uintMod = a := Nat.mod_eq_of_lt h2
  have hs : a + (uintMod - b) = (a - b) + uintMod := by
    have : b ≤ uintMod := le_of_lt (lt_of_le_of_lt h1 h2)
    omega
  have hd : a - b < uintMod := lt_of_le_of_lt (Nat.sub_le a b) h2
  rw [usub32, ha, hb, hs, Nat.add_mod_right, Nat.mod_eq_of_lt hd]

/-- A state with the astable multivibrator active (all other fields at the
startup defaults). -/
def stC5 : EngineState := { st0 with currentCircuit := "Astable Multivibrator" }

/-- C5: with the astable multivibrator active and timestamps that have not
wrapped (last pulse ≤ now < 2^32), a call inverts output line 0 and records
`now` as the last-pulse time exactly when at least 1000 time-units have
elapsed since the last pulse — so it fires exactly at the 1000 boundary —
and otherwise leaves the whole state (the previous output level included)
unchanged. -/
theorem c5_astable (now : Nat) (st : EngineState)
    (hc : st.currentCircuit = "Astable Multivibrator")
    (hle : st.lastPulseTime ≤ now) (hlt : now < uintMod) :
    (1000 ≤ now - st.lastPulseTime →
       (processTimerCircuits now st).outputs 0 = !(st.outputs 0) ∧
       (processTimerCircuits now st).lastPulseTime = now)
    ∧ (now - st.lastPulseTime < 1000 → processTimerCircuits now st = st) := by
  have he := usub32_eq now st.lastPulseTime hle hlt
  constructor
  · intro h
    simp [processTimerCircuits, hc, he, h, Nat.mod_eq_of_lt hlt]
  · intro h
    simp [processTimerCircuits, hc, he, Nat.not_le.mpr h]

/-- C5 witness: from last pulse 0, the call at exactly time 1000 inverts
output 0 (LOW to HIGH) and records 1000. -/
theorem c5_astable_witness :
    (processTimerCircuits 1000 stC5).outputs 0 = !(stC5.outputs 0) ∧
    (processTimerCircuits 1000 stC5).lastPulseTime = 1000 :=
  (c5_astable 1000 stC5 rfl (by decide) (by decide)).1 (by decide)

/-- C6: each basic gate writes exactly its truth table of input lines 0 and
1 to output line 0; the result is a function of the inputs alone (the
right-hand sides mention neither the clock nor any persisted state). -/
theorem c6_basic_gates (inputs : Fin 8 → Bool) (st : EngineState) :
    (st.currentCircuit = "AND" →
      (processBasicGates inputs st).outputs 0 = (inputs 0 && inputs 1))
    ∧ (st.currentCircuit = "OR" →
      (processBasicGates inputs st).outputs 0 = (inputs 0 || inputs 1))
    ∧ (st.currentCircuit = "NOT" →
      (processBasicGates inputs st).outputs 0 = !(inputs 0))
    ∧ (st.currentCircuit = "NAND" →
      (processBasicGates inputs st).outputs 0 = !(inputs 0 && inputs 1))
    ∧ (st.currentCircuit = "NOR" →
      (processBasicGates inputs st).outputs 0 = !(inputs 0 || inputs 1))
    ∧ (st.currentCircuit = "XOR" →
      (processBasicGates inputs st).outputs 0 = xor (inputs 0) (inputs 1))
    ∧ (st.currentCircuit = "XNOR" →
      (processBasicGates inputs st).outputs 0 = !(xor (inputs 0) (inputs 1))) := by
  refine ⟨?_, ?_, ?_, ?_, ?_, ?_, ?_⟩ <;> intro h <;> simp [processBasicGates, h]

/-- C6 witness: the AND gate on inputs all HIGH yields HIGH. -/
theorem c6_basic_gates_witness :
    (processBasicGates (fun _ => true) st0).outputs 0 = (true && true) :=
  (c6_basic_gates (fun _ => true) st0).1 rfl

/-- One full clock cycle on the counter with reset deasserted: a tick with
the clock HIGH (firing the rising edge when the stored level was LOW)
followed by a tick with the clock LOW (re-arming the edge detector). -/
def clockPulse (st : EngineState) : EngineState :=
  processCounterCircuits false true (processCounterCircuits true true st)

/-- Effect of one clock cycle on the up counter: the value is incremented
mod 16 and the edge detector is re-armed. -/
theorem clockPulse_up (st : EngineState)
    (hc : st.currentCircuit = "Binary Up Counter")
    (hl : st.lastClockState = false) :
    (clockPulse st).currentCircuit = "Binary Up Counter" ∧
    (clockPulse st).lastClockState = false ∧
    (clockPulse st).counterValue = (st.counterValue + 1).tmod 16 := by
  simp [clockPulse, processCounterCircuits, hc, hl]

/-- Iterated clock cycles on the up counter add the cycle count mod 16. -/
theorem clockPulse_iter_up (st : EngineState)
    (hc : st.currentCircuit = "Binary Up Counter")
    (hl : st.lastClockState = false)
    (h0 : 0 ≤ st.counterValue) (h16 : st.counterValue < 16) :
    ∀ n : Nat, (clockPulse^[n] st).currentCircuit = "Binary Up Counter" ∧
      (clockPulse^[n] st).lastClockState = false ∧
      (clockPulse^[n] st).counterValue = (st.counterValue + n) % 16 := by
  intro n
  induction n with
  | zero => simpa [hc, hl] using (Int.emod_eq_of_lt h0 h16).symm
  | succ n ih =>
    obtain ⟨ih1, ih2, ih3⟩ := ih
    rw [Function.iterate_succ_apply']
    have hstep := clockPulse_up _ ih1 ih2
    refine ⟨hstep.1, hstep.2.1, ?_⟩
    rw [hstep.2.2, ih3]
    have h1 : (0:Int) ≤ (st.counterValue + n) % 16 := Int.emod_nonneg _ (by norm_num)
    rw [Int.tmod_eq_emod (by omega) (by norm_num)]
    omega

/-- C7: with reset deasserted, 16 full clock cycles on the up counter
return the counter to its starting value in [0,16), and a single rising
edge on the down counter from value 0 yields 15 (wrap, not -1). -/
theorem c7_counter_wrap (st : EngineState)
    (hup : st.currentCircuit = "Binary Up Counter")
    (hl : st.lastClockState = false)
    (h0 : 0 ≤ st.counterValue) (h16 : st.counterValue < 16) :
    (clockPulse^[16] st).counterValue = st.counterValue
    ∧ ∀ st2 : EngineState, st2.currentCircuit = "Binary Down Counter" →
        st2.lastClockState = false → st2.counterValue = 0 →
        (processCounterCircuits true true st2).counterValue = 15 := by
  constructor
  · have h := (clockPulse_iter_up st hup hl h0 h16) 16
    rw [h.2.2]
    omega
  · intro st2 hc2 hl2 hv2
    simp [processCounterCircuits, hc2, hl2, hv2]
    decide

/-- The up counter started at value 5 (everything else at startup
defaults). -/
def stC7 : EngineState :=
  { st0 with currentCircuit := "Binary Up Counter", counterValue := 5 }

/-- C7 witness: 16 clock cycles from value 5 return to 5. -/
theorem c7_counter_wrap_witness :
    (clockPulse^[16] stC7).counterValue = stC7.counterValue :=
  (c7_counter_wrap stC7 rfl rfl (by decide) (by decide)).1

/-- The BCD decoder active (everything else at startup defaults). -/
def stC8 : EngineState :=
  { st0 with currentCircuit := "BCD Decoder with 7-Segment Display" }

/-- C8: for every combination of the four input lines, every segment line
carries exactly the corresponding bit of the pattern-table entry selected
by the 4-bit input value (inputs 3 most significant) clamped to [0,9] —
in particular encodings 10-15 select the entry for 9, and the table access
is in bounds. -/
theorem c8_bcd_decoder (inputs : Fin 8 → Bool) (st : EngineState)
    (hc : st.currentCircuit = "BCD Decoder with 7-Segment Display") :
    ∀ i : Fin 7,
      (processDecoderCircuits inputs st).segments i
        = Nat.testBit
            (digitPatterns.get
              ⟨min (8 * bnat (inputs 3) + 4 * bnat (inputs 2) +
                    2 * bnat (inputs 1) + bnat (inputs 0)) 9,
               Nat.lt_succ_of_le (Nat.min_le_right _ _)⟩)
            (i : Nat) := by
  rcases h0 : inputs 0 <;> rcases h1 : inputs 1 <;>
    rcases h2 : inputs 2 <;> rcases h3 : inputs 3 <;>
      simp [processDecoderCircuits, hc, decoderValue, constrain, bnat,
            h0, h1, h2, h3, digitPatterns] <;>
      first
      | rfl
      | decide

/-- C8 witness: all four input lines HIGH (encoding 15) light the segment
pattern for 9 on segment line 0. -/
theorem c8_bcd_decoder_witness :
    (processDecoderCircuits (fun _ => true) stC8).segments 0
      = Nat.testBit
          (digitPatterns.get
            ⟨min (8 * bnat true + 4 * bnat true + 2 * bnat true + bnat true) 9,
             Nat.lt_succ_of_le (Nat.min_le_right _ _)⟩) 0 :=
  c8_bcd_decoder (fun _ => true) stC8 rfl 0

/-- C9: a command that is not "menu", not "reset" and not exactly one of
the registered circuit names leaves the entire state — active circuit,
flip-flop value, counter value, last-pulse timestamp, output lines and
segment lines — unchanged. -/
theorem c9_unknown_command (command : String) (now : Nat) (st : EngineState)
    (h1 : command ≠ "menu") (h2 : command ≠ "reset")
    (h3 : isValidCircuit command = false) :
    handleSerialCommand command now st = st := by
  simp [handleSerialCommand, h1, h2, h3]

/-- C9 witness: the lowercase string "and" is not registered
(matching is case-sensitive) and changes nothing. -/
theorem c9_unknown_command_witness :
    handleSerialCommand "and" 3 st0 = st0 :=
  c9_unknown_command "and" 3 st0 (by decide) (by decide) (by decide)

/-- C10: the evaluation functions stay inside every fixed-size array:
the clamped decoder value indexes inside the 10-entry pattern table;
the counter never writes an output line beyond index 3; and the
combinational circuits read no input line beyond index 4 (two evaluations
agreeing on input lines 0-4 coincide). -/
theorem c10_array_bounds :
    (∀ inputs : Fin 8 → Bool, (decoderValue inputs).toNat < digitPatterns.length)
    ∧ (∀ (clock reset : Bool) (st : EngineState) (i : Fin 8), 4 ≤ (i : Nat) →
        (processCounterCircuits clock reset st).outputs i = st.outputs i)
    ∧ (∀ (st : EngineState) (inA inB : Fin 8 → Bool),
        (∀ j : Fin 8, (j : Nat) ≤ 4 → inA j = inB j) →
        processCombinationalCircuits inA st = processCombinationalCircuits inB st) := by
  refine ⟨?_, ?_, ?_⟩
  · intro inputs
    simp only [decoderValue, constrain, digitPatterns]
    split_ifs <;> simp <;> omega
  · intro clock reset st i hi
    have h4 : ¬((i : Nat) < 4) := by omega
    rcases hr : reset <;> rcases hcl : clock <;> rcases hlc : st.lastClockState <;>
      simp [processCounterCircuits, hr, hcl, hlc, h4]
  · intro st inA inB h
    have e0 := h 0 (by decide)
    have e1 := h 1 (by decide)
    have e2 := h 2 (by decide)
    have e3 := h 3 (by decide)
    have e4 := h 4 (by decide)
    simp [processCombinationalCircuits, e0, e1, e2, e3, e4]

/-- C10 witness: a counter tick with a rising edge leaves output line 4
untouched. -/
theorem c10_array_bounds_witness :
    (processCounterCircuits true true st0).outputs 4 = st0.outputs 4 :=
  c10_array_bounds.2.1 true true st0 4 (by decide)

end LogicLab
